import Mathlib

/-!
Shallow embedding of `financial_self_correcting_collaborative_agents.py`
(the self-correcting collaborative agents pipeline: plan, analyze, critique,
integrate).  The external reasoning capability (`Runner.run` + pydantic
parsing) is modelled as an oracle function from an agent and a prompt to the
structured output; `asyncio.gather` is modelled as an order-preserving
collection whose result is independent of the temporal completion order.
All context strings are built exactly as the Python f-strings build them.
-/

/-- The closed role set (`class ExpertiseArea(str, Enum)`). -/
inductive ExpertiseArea where
  | accounting
  | industry
  | risk
deriving DecidableEq

/-- The string value of the str-Enum member (`ExpertiseArea.ACCOUNTING == "accounting"` etc.). -/
def ExpertiseArea.value : ExpertiseArea → String
  | .accounting => "accounting"
  | .industry => "industry"
  | .risk => "risk"

/-- Python `.upper()` applied to the str-Enum value, tabulated over the
closed role set (`output.expertise_area.upper()` in the source). -/
def ExpertiseArea.upper : ExpertiseArea → String
  | .accounting => "ACCOUNTING"
  | .industry => "INDUSTRY"
  | .risk => "RISK"

/-- `class AgentThought(BaseModel)`: reasoning, conclusion, confidence.
Confidence is a Python float; modelled as a rational number. -/
structure AgentThought where
  reasoning : String
  conclusion : String
  confidence : ℚ
deriving DecidableEq

/-- `class AgentFeedback(BaseModel)`. -/
structure AgentFeedback where
  target_agent : String
  feedback : String
  suggested_correction : Option String
  confidence : ℚ
deriving DecidableEq

/-- `class CoordinatorOutput(BaseModel)` (the PlanResult). -/
structure CoordinatorOutput where
  task_analysis : String
  required_expertise : List ExpertiseArea
  accounting_weight : ℚ
  industry_weight : ℚ
  risk_weight : ℚ
deriving DecidableEq

/-- `class ExpertAgentOutput(BaseModel)` (a WorkerOutput). -/
structure ExpertAgentOutput where
  expertise_area : ExpertiseArea
  thoughts : AgentThought
  feedback_on_others : List AgentFeedback := []
deriving DecidableEq

/-- `class FinalAnalysisOutput(BaseModel)` (the FinalResult). -/
structure FinalAnalysisOutput where
  integrated_analysis : String
  confidence_level : ℚ
  key_insights : List String
  dissenting_opinions : Option (List String)
deriving DecidableEq

/-- A pydantic `Field(...)` declaration for a numeric field: the source code
passes only `description=...`; `ge`/`le` bounds are the pydantic mechanism
that would enforce a numeric range, and the source never sets them. -/
structure FieldSpec where
  description : String
  ge : Option ℚ := none
  le : Option ℚ := none

/-- pydantic numeric-constraint check for one field: a bound is enforced
if and only if it is declared on the field. -/
def checkNum (fs : FieldSpec) (v : ℚ) : Bool :=
  (match fs.ge with
    | none => true
    | some b => decide (b ≤ v))
  &&
  (match fs.le with
    | none => true
    | some b => decide (v ≤ b))

/-- `AgentThought.confidence = Field(description="Confidence level from 0.0 to 1.0")`:
description only, no bounds. -/
def thoughtConfidenceField : FieldSpec :=
  { description := "Confidence level from 0.0 to 1.0" }

/-- `AgentFeedback.confidence = Field(description="Confidence in this feedback from 0.0 to 1.0")`. -/
def feedbackConfidenceField : FieldSpec :=
  { description := "Confidence in this feedback from 0.0 to 1.0" }

/-- `FinalAnalysisOutput.confidence_level = Field(description="Overall confidence in the analysis")`. -/
def finalConfidenceField : FieldSpec :=
  { description := "Overall confidence in the analysis" }

/-- Shape validation of an `AgentThought` value as pydantic performs it:
field types are enforced by the type itself; the only possible value
constraint on `confidence` is the declared field spec. -/
def validateAgentThought (t : AgentThought) : Bool :=
  checkNum thoughtConfidenceField t.confidence

/-- Shape validation of an `AgentFeedback` value (see `validateAgentThought`). -/
def validateAgentFeedback (f : AgentFeedback) : Bool :=
  checkNum feedbackConfidenceField f.confidence

/-- Shape validation of a `FinalAnalysisOutput` value (see `validateAgentThought`). -/
def validateFinalAnalysisOutput (o : FinalAnalysisOutput) : Bool :=
  checkNum finalConfidenceField o.confidence_level

/-- Shape validation of a `CoordinatorOutput`: the source declares
`required_expertise : List[ExpertiseArea]` with no uniqueness validator,
so no value constraint exists beyond element typing. -/
def requiredExpertiseConstraint : Option (List ExpertiseArea → Bool) := none

/-- pydantic validation of `CoordinatorOutput`: applies the (absent)
list constraint. -/
def validateCoordinatorOutput (_c : CoordinatorOutput) : Bool :=
  match requiredExpertiseConstraint with
  | none => true
  | some f => f _c.required_expertise

/-- Modelled from the spec (section 7) for contrast: the validator the spec
describes, which rejects a confidence outside [0.0, 1.0]. -/
def specValidateConfidence (c : ℚ) : Bool :=
  decide (0 ≤ c) && decide (c ≤ 1)

/-- An agent as configured in the source: a name, its instruction string.
The agent value is the capability endpoint identity. -/
structure Agent where
  name : String
  instructions : String
deriving DecidableEq

def coordinator_agent : Agent :=
  { name := "coordinator_agent"
    instructions :=
      "You analyze financial tasks and determine which expertise is needed. For each task, evaluate what mix of accounting, industry, and risk assessment expertise is required. Assign weights to each expertise area based on its importance to the task." }

def accounting_expert : Agent :=
  { name := "accounting_expert"
    instructions :=
      "You are an expert in accounting and financial statements. Analyze the financial task from an accounting perspective. Review other experts\x27 work and provide feedback when you see accounting errors. Be specific about accounting principles, financial reporting standards, and calculations." }

def industry_expert : Agent :=
  { name := "industry_expert"
    instructions :=
      "You are an expert in industry analysis and market trends. Analyze the financial task from an industry perspective. Review other experts\x27 work and provide feedback when you see misconceptions about the industry. Be specific about industry benchmarks, trends, and competitive factors." }

def risk_expert : Agent :=
  { name := "risk_expert"
    instructions :=
      "You are an expert in risk assessment and financial risk management. Analyze the financial task from a risk management perspective. Review other experts\x27 work and provide feedback when you see overlooked risks. Be specific about risk factors, probabilities, and potential mitigation strategies." }

def integration_agent : Agent :=
  { name := "integration_agent"
    instructions :=
      "You integrate the analyses and feedback from all expert agents. Weigh their inputs based on the expertise weights provided by the coordinator. Resolve conflicts by considering confidence levels and expertise relevance. Produce a comprehensive final analysis that incorporates all valid insights." }

/-- The `expert_agents` dict literal of `collect_expert_outputs`
(role registry, as an association list). -/
def expert_agents : List (ExpertiseArea × Agent) :=
  [(.accounting, accounting_expert), (.industry, industry_expert), (.risk, risk_expert)]

/-- The role-to-endpoint map as a total function; agrees with dict lookup in
`expert_agents` (proved below), so the KeyError branch of `expert_agents[area]`
is unreachable. -/
def expertAgent : ExpertiseArea → Agent
  | .accounting => accounting_expert
  | .industry => industry_expert
  | .risk => risk_expert

/-- The `if/elif` dispatch of `collaborative_feedback_round` (lines 192-197):
which agent is invoked for a given self-reported expertise area. -/
def critique_agent_for : ExpertiseArea → Agent
  | .accounting => accounting_expert
  | .industry => industry_expert
  | .risk => risk_expert

/-- Python f-string rendering of a numeric value. -/
def pyShow (q : ℚ) : String := toString q

/-- Python f-string rendering of an `Optional[str]` (`None` renders as "None"). -/
def pyShowOpt : Option String → String
  | none => "None"
  | some s => s

/-- A `workspace += piece(x)` accumulation loop over a list. -/
def appendFold (f : α → String) (acc : String) (xs : List α) : String :=
  xs.foldl (fun w x => w ++ f x) acc

/-- `asyncio.gather` over the tasks of one stage: it awaits every task and
returns their results in the order of the argument list.  Each task computes
its value purely from its own arguments (no shared mutable state), so the
temporal completion order - the `completionOrder` parameter - cannot
influence the returned list. -/
def gather (tasks : List α) (_completionOrder : List Nat) : List α := tasks

/-- The shared workspace of `collect_expert_outputs` (lines 151-155). -/
def analyze_workspace (task_description : String) (co : CoordinatorOutput) : String :=
  "Task: " ++ task_description ++ "\n\n"
    ++ "Task Analysis: " ++ co.task_analysis ++ "\n\n"
    ++ "Required Expertise: "
    ++ String.intercalate ", " (co.required_expertise.map ExpertiseArea.value)
    ++ "\n\n"

/-- The Analyze-stage invocation list: one `(agent, prompt)` pair per entry of
`required_expertise`, in list order (lines 146-158). -/
def analyze_invocations (task_description : String) (co : CoordinatorOutput) :
    List (Agent × String) :=
  co.required_expertise.map
    (fun a => (expertAgent a, analyze_workspace task_description co))

/-- `collect_expert_outputs`: run every required expert concurrently on the
shared workspace and gather the outputs in invocation order. -/
def collect_expert_outputs (task_description : String) (co : CoordinatorOutput)
    (oracle : Agent → String → ExpertAgentOutput) (completionOrder : List Nat) :
    List ExpertAgentOutput :=
  gather ((analyze_invocations task_description co).map (fun p => oracle p.1 p.2))
    completionOrder

/-- One expert block of the critique-round shared workspace (lines 172-177). -/
def critique_entry (o : ExpertAgentOutput) : String :=
  "--- " ++ o.expertise_area.upper ++ " EXPERT ANALYSIS ---\n"
    ++ "Reasoning: " ++ o.thoughts.reasoning ++ "\n"
    ++ "Conclusion: " ++ o.thoughts.conclusion ++ "\n"
    ++ "Confidence: " ++ pyShow o.thoughts.confidence ++ "\n\n"

/-- The shared workspace of `collaborative_feedback_round` (lines 169-177):
header plus one block per Analyze-stage output, in list order. -/
def critique_workspace (outs : List ExpertAgentOutput) : String :=
  appendFold critique_entry "SHARED WORKSPACE - EXPERT ANALYSES:\n\n" outs

/-- The trailing role-specific directive of the review prompt (lines 185-188). -/
def review_directive (a : ExpertiseArea) : String :=
  "You are the " ++ a.upper ++ " EXPERT. "
    ++ "Review the analyses above and provide feedback on any errors or oversights "
    ++ "from your expertise perspective. Focus especially on areas where your "
    ++ "expertise gives you unique insight."

/-- The full review prompt handed to one expert in the critique round
(lines 183-189): the shared workspace, a blank line, the directive. -/
def review_prompt (workspace : String) (a : ExpertiseArea) : String :=
  workspace ++ "\n\n" ++ review_directive a

/-- The Critique-stage invocation list (lines 180-197): one `(agent, prompt)`
pair per Analyze-stage output, dispatched on the output's expertise area. -/
def critique_invocations (outs : List ExpertAgentOutput) : List (Agent × String) :=
  outs.map (fun o =>
    (critique_agent_for o.expertise_area,
      review_prompt (critique_workspace outs) o.expertise_area))

/-- `collaborative_feedback_round`: every expert reviews the shared workspace
concurrently; results gathered in invocation order. -/
def collaborative_feedback_round (outs : List ExpertAgentOutput)
    (oracle : Agent → String → ExpertAgentOutput) (completionOrder : List Nat) :
    List ExpertAgentOutput :=
  gather ((critique_invocations outs).map (fun p => oracle p.1 p.2)) completionOrder

/-- The fixed head of the integration workspace (lines 235-240). -/
def integration_header (task_description : String) (co : CoordinatorOutput) : String :=
  "Task: " ++ task_description ++ "\n\n"
    ++ "Coordinator Analysis: " ++ co.task_analysis ++ "\n\n"
    ++ "Expertise Weights: Accounting: " ++ pyShow co.accounting_weight
    ++ ", Industry: " ++ pyShow co.industry_weight
    ++ ", Risk: " ++ pyShow co.risk_weight ++ "\n\n"
    ++ "EXPERT ANALYSES AND FEEDBACK:\n\n"

/-- One feedback line group of the integration workspace (lines 250-255). -/
def feedback_block (fb : AgentFeedback) : String :=
  "  - To " ++ fb.target_agent ++ ": " ++ fb.feedback ++ "\n"
    ++ "    Suggested correction: " ++ pyShowOpt fb.suggested_correction ++ "\n"
    ++ "    Confidence: " ++ pyShow fb.confidence ++ "\n"

/-- One expert block of the integration workspace (lines 242-257). -/
def integration_entry (o : ExpertAgentOutput) : String :=
  "--- " ++ o.expertise_area.upper ++ " EXPERT ---\n"
    ++ "Analysis: " ++ o.thoughts.conclusion ++ "\n"
    ++ "Confidence: " ++ pyShow o.thoughts.confidence ++ "\n"
    ++ "Feedback on others:\n"
    ++ appendFold feedback_block "" o.feedback_on_others
    ++ "\n"

/-- The integration workspace of `main` (lines 235-257): header plus one
block per refined (post-critique) expert output, in list order. -/
def integration_workspace (task_description : String) (co : CoordinatorOutput)
    (refined : List ExpertAgentOutput) : String :=
  appendFold integration_entry (integration_header task_description co) refined

/-- The whole pipeline of `main`, success path: plan, analyze, critique,
integrate, with each capability call answered by the matching oracle. -/
def run_pipeline (task_description : String)
    (coordOracle : Agent → String → CoordinatorOutput)
    (expertOracle : Agent → String → ExpertAgentOutput)
    (integOracle : Agent → String → FinalAnalysisOutput)
    (sA sC : List Nat) : FinalAnalysisOutput :=
  let co := coordOracle coordinator_agent task_description
  let outs := collect_expert_outputs task_description co expertOracle sA
  let refined := collaborative_feedback_round outs expertOracle sC
  integOracle integration_agent (integration_workspace task_description co refined)

/-- `asyncio.gather` over fallible tasks with default `return_exceptions`:
if any task raises, the exception propagates and no result list is produced;
otherwise all results are returned in task order. -/
def gatherE (tasks : List (Except String α)) : Except String (List α) :=
  match tasks with
  | [] => .ok []
  | t :: ts =>
    match t with
    | .error e => .error e
    | .ok a => (gatherE ts).map (fun l => a :: l)

/-- `collect_expert_outputs` with fallible capability invocations. -/
def collect_expert_outputsE (task_description : String) (co : CoordinatorOutput)
    (oracle : Agent → String → Except String ExpertAgentOutput) :
    Except String (List ExpertAgentOutput) :=
  gatherE ((analyze_invocations task_description co).map (fun p => oracle p.1 p.2))

/-- `collaborative_feedback_round` with fallible capability invocations. -/
def collaborative_feedback_roundE (outs : List ExpertAgentOutput)
    (oracle : Agent → String → Except String ExpertAgentOutput) :
    Except String (List ExpertAgentOutput) :=
  gatherE ((critique_invocations outs).map (fun p => oracle p.1 p.2))

/-- The whole pipeline of `main` with fallible capability invocations: an
exception in any stage propagates out of `main` uncaught. -/
def run_pipelineE (task_description : String)
    (coordOracle : Agent → String → Except String CoordinatorOutput)
    (expertOracle : Agent → String → Except String ExpertAgentOutput)
    (integOracle : Agent → String → Except String FinalAnalysisOutput) :
    Except String FinalAnalysisOutput := do
  let co ← coordOracle coordinator_agent task_description
  let outs ← collect_expert_outputsE task_description co expertOracle
  let refined ← collaborative_feedback_roundE outs expertOracle
  integOracle integration_agent (integration_workspace task_description co refined)

/-- `needle` occurs contiguously inside `hay`. -/
def substr (needle hay : String) : Prop :=
  ∃ s t, hay = s ++ needle ++ t

theorem substr_intro (s t a : String) : substr a (s ++ a ++ t) := ⟨s, t, rfl⟩

theorem substr_trans {a b c : String} (h1 : substr a b) (h2 : substr b c) :
    substr a c := by
  obtain ⟨s, t, rfl⟩ := h1
  obtain ⟨u, v, rfl⟩ := h2
  exact ⟨u ++ s, t ++ v, by simp only [String.append_assoc]⟩

theorem appendFold_acc (f : α → String) (acc : String) (xs : List α) :
    ∃ t, appendFold f acc xs = acc ++ t := by
  induction xs generalizing acc with
  | nil => exact ⟨"", by simp [appendFold, String.append_empty]⟩
  | cons x xs ih =>
    obtain ⟨t, ht⟩ := ih (acc ++ f x)
    refine ⟨f x ++ t, ?_⟩
    have hc : appendFold f acc (x :: xs) = appendFold f (acc ++ f x) xs := by
      simp [appendFold]
    rw [hc, ht, String.append_assoc]

theorem substr_appendFold (f : α → String) (x : α) :
    ∀ (xs : List α), x ∈ xs → ∀ (acc : String), substr (f x) (appendFold f acc xs) := by
  intro xs
  induction xs with
  | nil => intro hx; cases hx
  | cons y ys ih =>
    intro hx acc
    have hc : appendFold f acc (y :: ys) = appendFold f (acc ++ f y) ys := by
      simp [appendFold]
    rcases List.mem_cons.mp hx with h | h
    · subst h
      obtain ⟨t, ht⟩ := appendFold_acc f (acc ++ f x) ys
      refine ⟨acc, t, ?_⟩
      rw [hc, ht, String.append_assoc]
    · rw [hc]; exact ih h (acc ++ f y)

/-- Sample data used by witness theorems. -/
def wThought : AgentThought :=
  { reasoning := "r1", conclusion := "c1", confidence := 9/10 }

def wFb : AgentFeedback :=
  { target_agent := "industry_expert", feedback := "check depreciation"
    suggested_correction := some "use straight-line", confidence := 3/5 }

def wOut : ExpertAgentOutput :=
  { expertise_area := .accounting, thoughts := wThought, feedback_on_others := [wFb] }

def wOut2 : ExpertAgentOutput :=
  { expertise_area := .industry
    thoughts := { reasoning := "r2", conclusion := "c2", confidence := 1/2 }
    feedback_on_others := [] }

def wOuts : List ExpertAgentOutput := [wOut, wOut2]

def wCo : CoordinatorOutput :=
  { task_analysis := "ta", required_expertise := [.accounting, .industry]
    accounting_weight := 7/10, industry_weight := 3/10, risk_weight := 0 }

/-- C10: role-to-endpoint resolution is total over the closed Role set:
dict lookup in `expert_agents` succeeds for every `ExpertiseArea`, returning
the endpoint given by `expertAgent`, so the KeyError (configuration-error)
branch of `expert_agents[area]` is unreachable. -/
theorem c10_registry_total (a : ExpertiseArea) :
    List.lookup a expert_agents = some (expertAgent a)
    ∧ (List.lookup a expert_agents).isSome = true := by
  cases a <;> exact ⟨rfl, rfl⟩

/-- C3: for a plan with N required roles the Analyze stage issues exactly N
invocations and returns exactly N outputs; the result is independent of the
completion order of the concurrent invocations and is exactly the map of the
oracle over the required-role list (order determined solely by that list). -/
theorem c3_analyze_stage_shape (td : String) (co : CoordinatorOutput)
    (oracle : Agent → String → ExpertAgentOutput) (s1 s2 : List Nat) :
    (analyze_invocations td co).length = co.required_expertise.length
    ∧ (collect_expert_outputs td co oracle s1).length = co.required_expertise.length
    ∧ collect_expert_outputs td co oracle s1 = collect_expert_outputs td co oracle s2
    ∧ collect_expert_outputs td co oracle s1
        = co.required_expertise.map
            (fun a => oracle (expertAgent a) (analyze_workspace td co)) := by
  refine ⟨?_, ?_, rfl, ?_⟩ <;>
    simp [collect_expert_outputs, analyze_invocations, gather, List.map_map, Function.comp]

/-- C5: the critique round dispatches each output to the agent given by the
same role-to-endpoint map that the Analyze stage used (`expertAgent`), so a
role's endpoint binding is stable across the run, and the critique stage
invokes exactly the roles of the Analyze-stage WorkerOutput set. -/
theorem c5_stable_role_endpoint_binding (outs : List ExpertAgentOutput)
    (td : String) (co : CoordinatorOutput) :
    (∀ a : ExpertiseArea, critique_agent_for a = expertAgent a)
    ∧ (analyze_invocations td co).map (fun p => p.1)
        = co.required_expertise.map expertAgent
    ∧ critique_invocations outs
        = outs.map (fun o => (expertAgent o.expertise_area,
            review_prompt (critique_workspace outs) o.expertise_area))
    ∧ (critique_invocations outs).map (fun p => p.1)
        = (outs.map (fun o => o.expertise_area)).map expertAgent := by
  have hend : ∀ a, critique_agent_for a = expertAgent a := by
    intro a; cases a <;> rfl
  refine ⟨hend, ?_, ?_, ?_⟩
  · simp [analyze_invocations, List.map_map, Function.comp]
  · simp [critique_invocations, hend]
  · simp [critique_invocations, List.map_map, Function.comp, hend]

/-- C9: context building is deterministic: each context builder is a pure
function of its arguments, so equal inputs give identical context strings. -/
theorem c9_context_builder_deterministic (td td' : String) (co co' : CoordinatorOutput)
    (outs outs' refined refined' : List ExpertAgentOutput)
    (h1 : td = td') (h2 : co = co') (h3 : outs = outs') (h4 : refined = refined') :
    analyze_workspace td co = analyze_workspace td' co'
    ∧ critique_workspace outs = critique_workspace outs'
    ∧ (∀ r : ExpertiseArea,
        review_prompt (critique_workspace outs) r
          = review_prompt (critique_workspace outs') r)
    ∧ integration_workspace td co refined = integration_workspace td' co' refined' := by
  subst h1; subst h2; subst h3; subst h4
  exact ⟨rfl, rfl, fun _ => rfl, rfl⟩

theorem c9_witness :
    analyze_workspace "t" wCo = analyze_workspace "t" wCo
    ∧ critique_workspace wOuts = critique_workspace wOuts
    ∧ (∀ r : ExpertiseArea,
        review_prompt (critique_workspace wOuts) r
          = review_prompt (critique_workspace wOuts) r)
    ∧ integration_workspace "t" wCo wOuts = integration_workspace "t" wCo wOuts :=
  c9_context_builder_deterministic "t" "t" wCo wCo wOuts wOuts wOuts wOuts rfl rfl rfl rfl

theorem substr_reasoning_in_entry (o : ExpertAgentOutput) :
    substr o.thoughts.reasoning (critique_entry o) := by
  refine ⟨"--- " ++ o.expertise_area.upper ++ " EXPERT ANALYSIS ---\n"
      ++ "Reasoning: ",
    "\n" ++ "Conclusion: " ++ o.thoughts.conclusion ++ "\n"
      ++ "Confidence: " ++ pyShow o.thoughts.confidence ++ "\n\n", ?_⟩
  simp only [critique_entry, String.append_assoc]

theorem substr_conclusion_in_entry (o : ExpertAgentOutput) :
    substr o.thoughts.conclusion (critique_entry o) := by
  refine ⟨"--- " ++ o.expertise_area.upper ++ " EXPERT ANALYSIS ---\n"
      ++ "Reasoning: " ++ o.thoughts.reasoning ++ "\n" ++ "Conclusion: ",
    "\n" ++ "Confidence: " ++ pyShow o.thoughts.confidence ++ "\n\n", ?_⟩
  simp only [critique_entry, String.append_assoc]

theorem substr_confidence_in_entry (o : ExpertAgentOutput) :
    substr (pyShow o.thoughts.confidence) (critique_entry o) := by
  refine ⟨"--- " ++ o.expertise_area.upper ++ " EXPERT ANALYSIS ---\n"
      ++ "Reasoning: " ++ o.thoughts.reasoning ++ "\n"
      ++ "Conclusion: " ++ o.thoughts.conclusion ++ "\n" ++ "Confidence: ",
    "\n\n", ?_⟩
  simp only [critique_entry, String.append_assoc]

/-- C2: the Critique-stage context handed to role R is the shared workspace
(which contains the reasoning, conclusion and confidence of every
Analyze-stage output, R's own included) followed by a distinct trailing
directive naming R; the prompts of the round are computed from the
Analyze-stage outputs alone, so no Critique-stage output can occur in them. -/
theorem c2_critique_context (outs : List ExpertAgentOutput)
    (o : ExpertAgentOutput) (ho : o ∈ outs) (r r' : ExpertiseArea) (hrr : r ≠ r') :
    substr o.thoughts.reasoning (critique_workspace outs)
    ∧ substr o.thoughts.conclusion (critique_workspace outs)
    ∧ substr (pyShow o.thoughts.confidence) (critique_workspace outs)
    ∧ review_prompt (critique_workspace outs) r
        = critique_workspace outs ++ ("\n\n" ++ review_directive r)
    ∧ substr r.upper (review_directive r)
    ∧ review_directive r ≠ review_directive r'
    ∧ (∀ (oracle : Agent → String → ExpertAgentOutput) (s : List Nat),
        collaborative_feedback_round outs oracle s
          = outs.map (fun w => oracle (critique_agent_for w.expertise_area)
              (review_prompt (critique_workspace outs) w.expertise_area))) := by
  have hw : ∀ x, substr x (critique_entry o) → substr x (critique_workspace outs) :=
    fun x hx => substr_trans hx (substr_appendFold critique_entry o outs ho _)
  refine ⟨hw _ (substr_reasoning_in_entry o), hw _ (substr_conclusion_in_entry o),
    hw _ (substr_confidence_in_entry o), ?_, ?_, ?_, ?_⟩
  · simp only [review_prompt, String.append_assoc]
  · exact ⟨"You are the ",
      " EXPERT. "
        ++ "Review the analyses above and provide feedback on any errors or oversights "
        ++ "from your expertise perspective. Focus especially on areas where your "
        ++ "expertise gives you unique insight.",
      by simp only [review_directive, String.append_assoc]⟩
  · cases r <;> cases r' <;> first | exact absurd rfl hrr | decide
  · intro oracle s
    simp [collaborative_feedback_round, critique_invocations, gather,
      List.map_map, Function.comp]

theorem c2_witness :
    substr wOut.thoughts.reasoning (critique_workspace wOuts)
    ∧ substr wOut.thoughts.conclusion (critique_workspace wOuts)
    ∧ substr (pyShow wOut.thoughts.confidence) (critique_workspace wOuts)
    ∧ review_prompt (critique_workspace wOuts) ExpertiseArea.accounting
        = critique_workspace wOuts
            ++ ("\n\n" ++ review_directive ExpertiseArea.accounting)
    ∧ substr (ExpertiseArea.accounting).upper
        (review_directive ExpertiseArea.accounting)
    ∧ review_directive ExpertiseArea.accounting
        ≠ review_directive ExpertiseArea.industry
    ∧ (∀ (oracle : Agent → String → ExpertAgentOutput) (s : List Nat),
        collaborative_feedback_round wOuts oracle s
          = wOuts.map (fun w => oracle (critique_agent_for w.expertise_area)
              (review_prompt (critique_workspace wOuts) w.expertise_area))) :=
  c2_critique_context wOuts wOut (by simp [wOuts]) .accounting .industry (by decide)

theorem substr_conclusion_in_ientry (o : ExpertAgentOutput) :
    substr o.thoughts.conclusion (integration_entry o) := by
  refine ⟨"--- " ++ o.expertise_area.upper ++ " EXPERT ---\n" ++ "Analysis: ",
    "\n" ++ "Confidence: " ++ pyShow o.thoughts.confidence ++ "\n"
      ++ "Feedback on others:\n"
      ++ appendFold feedback_block "" o.feedback_on_others ++ "\n", ?_⟩
  simp only [integration_entry, String.append_assoc]

theorem substr_confidence_in_ientry (o : ExpertAgentOutput) :
    substr (pyShow o.thoughts.confidence) (integration_entry o) := by
  refine ⟨"--- " ++ o.expertise_area.upper ++ " EXPERT ---\n"
      ++ "Analysis: " ++ o.thoughts.conclusion ++ "\n" ++ "Confidence: ",
    "\n" ++ "Feedback on others:\n"
      ++ appendFold feedback_block "" o.feedback_on_others ++ "\n", ?_⟩
  simp only [integration_entry, String.append_assoc]

theorem substr_fbblock_in_ientry (o : ExpertAgentOutput) (fb : AgentFeedback)
    (hfb : fb ∈ o.feedback_on_others) :
    substr (feedback_block fb) (integration_entry o) := by
  refine substr_trans (substr_appendFold feedback_block fb _ hfb "")
    ⟨"--- " ++ o.expertise_area.upper ++ " EXPERT ---\n"
      ++ "Analysis: " ++ o.thoughts.conclusion ++ "\n"
      ++ "Confidence: " ++ pyShow o.thoughts.confidence ++ "\n"
      ++ "Feedback on others:\n", "\n", ?_⟩
  simp only [integration_entry, String.append_assoc]

theorem substr_target_in_fbblock (fb : AgentFeedback) :
    substr fb.target_agent (feedback_block fb) := by
  refine ⟨"  - To ",
    ": " ++ fb.feedback ++ "\n"
      ++ "    Suggested correction: " ++ pyShowOpt fb.suggested_correction ++ "\n"
      ++ "    Confidence: " ++ pyShow fb.confidence ++ "\n", ?_⟩
  simp only [feedback_block, String.append_assoc]

theorem substr_feedback_in_fbblock (fb : AgentFeedback) :
    substr fb.feedback (feedback_block fb) := by
  refine ⟨"  - To " ++ fb.target_agent ++ ": ",
    "\n" ++ "    Suggested correction: " ++ pyShowOpt fb.suggested_correction ++ "\n"
      ++ "    Confidence: " ++ pyShow fb.confidence ++ "\n", ?_⟩
  simp only [feedback_block, String.append_assoc]

theorem substr_correction_in_fbblock (fb : AgentFeedback) :
    substr (pyShowOpt fb.suggested_correction) (feedback_block fb) := by
  refine ⟨"  - To " ++ fb.target_agent ++ ": " ++ fb.feedback ++ "\n"
      ++ "    Suggested correction: ",
    "\n" ++ "    Confidence: " ++ pyShow fb.confidence ++ "\n", ?_⟩
  simp only [feedback_block, String.append_assoc]

theorem substr_fbconfidence_in_fbblock (fb : AgentFeedback) :
    substr (pyShow fb.confidence) (feedback_block fb) := by
  refine ⟨"  - To " ++ fb.target_agent ++ ": " ++ fb.feedback ++ "\n"
      ++ "    Suggested correction: " ++ pyShowOpt fb.suggested_correction ++ "\n"
      ++ "    Confidence: ", "\n", ?_⟩
  simp only [feedback_block, String.append_assoc]

/-- C4: the Integrate-stage context of `main` is built from the post-critique
(refined) WorkerOutput set: each refined output contributes its conclusion,
its confidence and every issued critique (target, feedback, suggested
correction, confidence), and the context is a function of the refined set
alone - two runs with equal refined sets get identical contexts, whatever
the pre-critique Analyze outputs were. -/
theorem c4_integration_context (td : String) (co : CoordinatorOutput)
    (refined : List ExpertAgentOutput) (o : ExpertAgentOutput) (ho : o ∈ refined)
    (fb : AgentFeedback) (hfb : fb ∈ o.feedback_on_others) :
    substr o.thoughts.conclusion (integration_workspace td co refined)
    ∧ substr (pyShow o.thoughts.confidence) (integration_workspace td co refined)
    ∧ substr fb.target_agent (integration_workspace td co refined)
    ∧ substr fb.feedback (integration_workspace td co refined)
    ∧ substr (pyShowOpt fb.suggested_correction) (integration_workspace td co refined)
    ∧ substr (pyShow fb.confidence) (integration_workspace td co refined)
    ∧ (∀ (outsA outsB : List ExpertAgentOutput)
        (oracle : Agent → String → ExpertAgentOutput) (s : List Nat),
        collaborative_feedback_round outsA oracle s
            = collaborative_feedback_round outsB oracle s →
        integration_workspace td co (collaborative_feedback_round outsA oracle s)
          = integration_workspace td co (collaborative_feedback_round outsB oracle s)) := by
  have hE : ∀ x, substr x (integration_entry o) →
      substr x (integration_workspace td co refined) :=
    fun x hx => substr_trans hx (substr_appendFold integration_entry o refined ho _)
  have hF : ∀ x, substr x (feedback_block fb) →
      substr x (integration_workspace td co refined) :=
    fun x hx => hE x (substr_trans hx (substr_fbblock_in_ientry o fb hfb))
  refine ⟨hE _ (substr_conclusion_in_ientry o), hE _ (substr_confidence_in_ientry o),
    hF _ (substr_target_in_fbblock fb), hF _ (substr_feedback_in_fbblock fb),
    hF _ (substr_correction_in_fbblock fb), hF _ (substr_fbconfidence_in_fbblock fb),
    fun _ _ _ _ h => by rw [h]⟩

theorem c4_witness :
    substr wOut.thoughts.conclusion (integration_workspace "t" wCo wOuts)
    ∧ substr (pyShow wOut.thoughts.confidence) (integration_workspace "t" wCo wOuts)
    ∧ substr wFb.target_agent (integration_workspace "t" wCo wOuts)
    ∧ substr wFb.feedback (integration_workspace "t" wCo wOuts)
    ∧ substr (pyShowOpt wFb.suggested_correction) (integration_workspace "t" wCo wOuts)
    ∧ substr (pyShow wFb.confidence) (integration_workspace "t" wCo wOuts)
    ∧ (∀ (outsA outsB : List ExpertAgentOutput)
        (oracle : Agent → String → ExpertAgentOutput) (s : List Nat),
        collaborative_feedback_round outsA oracle s
            = collaborative_feedback_round outsB oracle s →
        integration_workspace "t" wCo (collaborative_feedback_round outsA oracle s)
          = integration_workspace "t" wCo (collaborative_feedback_round outsB oracle s)) :=
  c4_integration_context "t" wCo wOuts wOut (by simp [wOuts]) wFb (by simp [wOut, wFb])

def c1_thought : AgentThought :=
  { reasoning := "r", conclusion := "c", confidence := 3/2 }

def c1_feedback : AgentFeedback :=
  { target_agent := "x", feedback := "f", suggested_correction := none
    confidence := -1/4 }

def c1_final : FinalAnalysisOutput :=
  { integrated_analysis := "a", confidence_level := 5/4, key_insights := ["k"]
    dissenting_opinions := none }

/-- C1 counterexample: capability responses whose confidence lies outside
[0.0, 1.0] (3/2, -1/4, 5/4) pass shape validation unchanged in all three
models, although the validator described by the spec rejects them; so an
out-of-range confidence is accepted as-is, not rejected. -/
theorem c1_counterexample :
    validateAgentThought c1_thought = true
    ∧ c1_thought.confidence = 3/2
    ∧ ¬ (c1_thought.confidence ≤ 1)
    ∧ validateAgentFeedback c1_feedback = true
    ∧ c1_feedback.confidence < 0
    ∧ validateFinalAnalysisOutput c1_final = true
    ∧ ¬ (c1_final.confidence_level ≤ 1)
    ∧ specValidateConfidence c1_thought.confidence = false := by
  have h1 : ¬ (c1_thought.confidence ≤ 1) := by norm_num [c1_thought]
  refine ⟨rfl, rfl, h1, rfl, by norm_num [c1_feedback], rfl,
    by norm_num [c1_final], ?_⟩
  simp [specValidateConfidence, h1]

/-- C1 (amended): the three confidence fields are declared with a
description only - no ge/le bound - so shape validation accepts every
confidence value unchanged: an out-of-range value is neither rejected as a
ShapeValidationError nor clamped into range. -/
theorem c1_amended_no_range_validation (t : AgentThought) (f : AgentFeedback)
    (o : FinalAnalysisOutput) :
    validateAgentThought t = true
    ∧ validateAgentFeedback f = true
    ∧ validateFinalAnalysisOutput o = true
    ∧ thoughtConfidenceField.ge = none ∧ thoughtConfidenceField.le = none
    ∧ feedbackConfidenceField.ge = none ∧ feedbackConfidenceField.le = none
    ∧ finalConfidenceField.ge = none ∧ finalConfidenceField.le = none :=
  ⟨rfl, rfl, rfl, rfl, rfl, rfl, rfl, rfl, rfl⟩

def c7_co : CoordinatorOutput :=
  { task_analysis := "dup", required_expertise := [.accounting, .accounting]
    accounting_weight := 1, industry_weight := 0, risk_weight := 0 }

/-- C7 counterexample: a PlanResult whose required-role list holds the same
role twice passes validation, and the Analyze stage invokes the accounting
endpoint once per occurrence - twice. -/
theorem c7_counterexample :
    validateCoordinatorOutput c7_co = true
    ∧ ¬ c7_co.required_expertise.Nodup
    ∧ (analyze_invocations "t" c7_co).map (fun p => p.1)
        = [accounting_expert, accounting_expert] := by
  refine ⟨rfl, by decide, rfl⟩

/-- C7 (amended): the required-role list is an arbitrary list over the
closed Role set - no validation rejects duplicates - and every stage
consumes it positionally: the Analyze stage issues one invocation per list
entry, so a duplicated role is invoked once per occurrence. -/
theorem c7_amended_duplicates_pass (td : String) (co : CoordinatorOutput)
    (oracle : Agent → String → ExpertAgentOutput) (s : List Nat) :
    validateCoordinatorOutput co = true
    ∧ analyze_invocations td co
        = co.required_expertise.map
            (fun a => (expertAgent a, analyze_workspace td co))
    ∧ (collect_expert_outputs td co oracle s).length
        = co.required_expertise.length := by
  refine ⟨rfl, rfl, ?_⟩
  simp [collect_expert_outputs, analyze_invocations, gather]

theorem gatherE_ok_length :
    ∀ (ts : List (Except String α)) (outs : List α),
      gatherE ts = .ok outs → outs.length = ts.length := by
  intro ts
  induction ts with
  | nil =>
    intro outs h
    simp only [gatherE] at h
    cases h
    rfl
  | cons t ts ih =>
    intro outs h
    cases t with
    | error e => simp [gatherE] at h
    | ok a =>
      simp only [gatherE] at h
      cases hg : gatherE ts with
      | error e => rw [hg] at h; simp [Except.map] at h
      | ok l =>
        rw [hg] at h
        simp only [Except.map] at h
        cases h
        simp [ih l hg]

theorem gatherE_error_of_mem :
    ∀ (ts : List (Except String α)),
      (∃ e, Except.error e ∈ ts) → ∃ e, gatherE ts = .error e := by
  intro ts
  induction ts with
  | nil => rintro ⟨e, he⟩; cases he
  | cons t ts ih =>
    rintro ⟨e, he⟩
    cases t with
    | error e2 => exact ⟨e2, rfl⟩
    | ok a =>
      rcases List.mem_cons.mp he with h | h
      · simp at h
      · obtain ⟨e2, hg⟩ := ih ⟨e, h⟩
        exact ⟨e2, by simp [gatherE, hg, Except.map]⟩

/-- C6 (amended): there is no configurable policy: in the Analyze stage and
in the Critique stage alike, a role invocation failure always aborts the
stage - `asyncio.gather` propagates the exception, which is observable to
the caller - and neither stage ever returns a partial subset: a successful
Analyze result holds one output per required role and a successful Critique
result holds one output per Analyze-stage output, so a failed role is never
silently dropped. -/
theorem c6_amended_failure_aborts (td : String) (co : CoordinatorOutput)
    (outs : List ExpertAgentOutput)
    (oracle : Agent → String → Except String ExpertAgentOutput) :
    (∀ res, collect_expert_outputsE td co oracle = .ok res →
        res.length = co.required_expertise.length)
    ∧ ((∃ e, ∃ p ∈ analyze_invocations td co, oracle p.1 p.2 = Except.error e) →
        ∃ e, collect_expert_outputsE td co oracle = Except.error e)
    ∧ (∀ res, collaborative_feedback_roundE outs oracle = .ok res →
        res.length = outs.length)
    ∧ ((∃ e, ∃ p ∈ critique_invocations outs, oracle p.1 p.2 = Except.error e) →
        ∃ e, collaborative_feedback_roundE outs oracle = Except.error e) := by
  refine ⟨?_, ?_, ?_, ?_⟩
  · intro res h
    have hlen := gatherE_ok_length _ res h
    simpa [analyze_invocations] using hlen
  · rintro ⟨e, p, hp, he⟩
    exact gatherE_error_of_mem _ ⟨e, List.mem_map.mpr ⟨p, hp, he⟩⟩
  · intro res h
    have hlen := gatherE_ok_length _ res h
    simpa [critique_invocations] using hlen
  · rintro ⟨e, p, hp, he⟩
    exact gatherE_error_of_mem _ ⟨e, List.mem_map.mpr ⟨p, hp, he⟩⟩

def c6_oracle : Agent → String → Except String ExpertAgentOutput :=
  fun a _ =>
    if a = accounting_expert then .error "accounting_expert invocation failed"
    else .ok wOut2

/-- C6 counterexample: with roles [accounting, industry] where the
accounting invocation fails and the industry invocation succeeds, the
Analyze stage aborts with the propagated exception; it does not return the
succeeding subset, and no configuration exists to choose otherwise. -/
theorem c6_counterexample :
    collect_expert_outputsE "t" wCo c6_oracle
      = Except.error "accounting_expert invocation failed" := by
  simp [collect_expert_outputsE, analyze_invocations, wCo, c6_oracle, gatherE,
    expertAgent]

theorem c6_witness :
    (∃ e, collect_expert_outputsE "t" wCo c6_oracle = Except.error e)
    ∧ (∃ e, collaborative_feedback_roundE wOuts c6_oracle = Except.error e) := by
  refine ⟨(c6_amended_failure_aborts "t" wCo wOuts c6_oracle).2.1 ?_,
    (c6_amended_failure_aborts "t" wCo wOuts c6_oracle).2.2.2 ?_⟩
  · exact ⟨"accounting_expert invocation failed",
      (accounting_expert, analyze_workspace "t" wCo),
      by simp [analyze_invocations, wCo, expertAgent],
      by simp [c6_oracle]⟩
  · refine ⟨"accounting_expert invocation failed",
      (critique_agent_for wOut.expertise_area,
        review_prompt (critique_workspace wOuts) wOut.expertise_area), ?_, ?_⟩
    · simp only [critique_invocations]
      exact List.mem_map_of_mem _ (by simp [wOuts])
    · simp [c6_oracle, wOut, critique_agent_for]

def c8_co : CoordinatorOutput :=
  { task_analysis := "ta0", required_expertise := []
    accounting_weight := 0, industry_weight := 0, risk_weight := 0 }

def c8_final : FinalAnalysisOutput :=
  { integrated_analysis := "done", confidence_level := 1/2
    key_insights := ["k"], dissenting_opinions := none }

/-- C8: with an empty required-role list the Analyze and Critique stages
each return the empty WorkerOutput list, the Integrate-stage context is the
bare header (no worker sections), and - absent an Integrate-stage failure -
the pipeline completes and returns the FinalResult. -/
theorem c8_empty_roles (td : String)
    (coordOracle : Agent → String → Except String CoordinatorOutput)
    (expertOracle : Agent → String → Except String ExpertAgentOutput)
    (integOracle : Agent → String → Except String FinalAnalysisOutput)
    (co : CoordinatorOutput) (fa : FinalAnalysisOutput)
    (hco : coordOracle coordinator_agent td = .ok co)
    (hempty : co.required_expertise = [])
    (hint : integOracle integration_agent (integration_header td co) = .ok fa) :
    collect_expert_outputsE td co expertOracle = .ok []
    ∧ collaborative_feedback_roundE [] expertOracle = .ok []
    ∧ integration_workspace td co [] = integration_header td co
    ∧ run_pipelineE td coordOracle expertOracle integOracle = .ok fa := by
  have h1 : collect_expert_outputsE td co expertOracle = .ok [] := by
    simp [collect_expert_outputsE, analyze_invocations, hempty, gatherE]
  have h2 : collaborative_feedback_roundE [] expertOracle = .ok [] := by
    simp [collaborative_feedback_roundE, critique_invocations, gatherE]
  have h3 : integration_workspace td co [] = integration_header td co := by
    simp [integration_workspace, appendFold]
  refine ⟨h1, h2, h3, ?_⟩
  simp [run_pipelineE, hco, h1, h2, h3, hint, bind, Except.bind]

theorem c8_witness :
    collect_expert_outputsE "t" c8_co (fun _ _ => .ok wOut2) = .ok []
    ∧ collaborative_feedback_roundE [] (fun _ _ => .ok wOut2) = .ok []
    ∧ integration_workspace "t" c8_co [] = integration_header "t" c8_co
    ∧ run_pipelineE "t" (fun _ _ => .ok c8_co) (fun _ _ => .ok wOut2)
        (fun _ _ => .ok c8_final) = .ok c8_final :=
  c8_empty_roles "t" _ _ _ c8_co c8_final rfl rfl rfl
